import Mathlib

/-!
Stopwatch (MSP430G2553): a shallow embedding of `Stopwatch_C.c`.

The firmware is a set of interrupt handlers over a handful of globals.  Each
handler is embedded as a pure function `State → State`; a handler runs to
completion (handlers are taken atomically here, preemption is not modelled).

Machine integers.  The target is the MSP430 (IAR), where `int` is 16 bits and
`char` is 8 bits.  Every `int` global is held as its 16-bit pattern, a natural
number below `2^16`, and every arithmetic result is reduced `% 65536`
(two's-complement wrap-around); `char` globals and the 8-bit port registers are
reduced `% 256`.  Comparisons against hexadecimal literals such as `0x9990`
(type `unsigned int` on this target) compare bit patterns, which is what `=` on
the patterns does.

Output ports.  `SEG_PORT` (`P1OUT`) and `DIG_PORT` (`P2OUT`) are volatile
registers; besides their current value the state keeps `portLog`, the sequence
of writes made to the two ports, oldest first.  A `SegPatternTable[i]` read with
`i` outside `0..9` reads outside the array: the value obtained is not determined
by the program and is represented by `none`.

The globals `TotalINTCount0`, `TotalINTCount1`, `CurrentDigitValue`, `holder` and
`thirdCounter` are read or written by no function and are left out of the state.
-/

namespace Stopwatch

/-! ## Constants (`#define`s) -/

/-- Bitwise complement `~x` of a 16-bit `int`, as a bit pattern. -/
def bnot16 (x : Nat) : Nat := 0xFFFF - x % 0x10000

/-- Left shift `x << k` of a 16-bit `int`, bits shifted out are lost. -/
def shl16 (x k : Nat) : Nat := (x * 2 ^ k) % 0x10000

/-- Right shift `x >> k` of a 16-bit signed `int` (arithmetic: the sign bit is
replicated into the vacated positions). -/
def asr16 (x k : Nat) : Nat :=
  if x % 0x10000 < 0x8000 then x % 0x10000 / 2 ^ k
  else x % 0x10000 / 2 ^ k + (0x10000 - 0x10000 / 2 ^ k)

def PB_0 : Nat := 0x20
def PB_1 : Nat := 0x80
def PB_2 : Nat := 0x40

def ONE : Nat := 0x06
def TWO : Nat := 0x5B
def THREE : Nat := 0x4F
def FOUR : Nat := 0x66
def FIVE : Nat := 0x6D
def SIX : Nat := 0x7D
def SEVEN : Nat := 0x07
def EIGHT : Nat := 0x7F
def NINE : Nat := 0x67
def ZERO : Nat := 0x3F

def ONE_N : Nat := bnot16 ONE
def TWO_N : Nat := bnot16 TWO
def THREE_N : Nat := bnot16 THREE
def FOUR_N : Nat := bnot16 FOUR
def FIVE_N : Nat := bnot16 FIVE
def SIX_N : Nat := bnot16 SIX
def SEVEN_N : Nat := bnot16 SEVEN
def EIGHT_N : Nat := bnot16 EIGHT
def NINE_N : Nat := bnot16 NINE
def ZERO_N : Nat := bnot16 ZERO

def DIG_3 : Nat := 0x01
def DIG_2 : Nat := 0x02
def DIG_1 : Nat := 0x04
def DIG_0 : Nat := 0x08
def COL_DG_COM : Nat := 0x10

def DIG_3_N : Nat := bnot16 DIG_3
def DIG_2_N : Nat := bnot16 DIG_2
def DIG_1_N : Nat := bnot16 DIG_1
def DIG_0_N : Nat := bnot16 DIG_0
def COL_DG_COM_N : Nat := bnot16 COL_DG_COM

/-- The table `int SegPatternTable[10]`. -/
def SegPatternTable : List Nat :=
  [ZERO_N, ONE_N, TWO_N, THREE_N, FOUR_N, FIVE_N, SIX_N, SEVEN_N, EIGHT_N, NINE_N]

/-- The read `SegPatternTable[R1]`, `R1` a 16-bit `int` given by its pattern.
Patterns `0..9` are the indices inside the table; every other pattern (a larger
or a negative index) reads outside the array and yields `none`. -/
def readSegPattern (R1 : Nat) : Option Nat := SegPatternTable[R1]?

/-! ## State -/

/-- One write to an output port. -/
inductive PortWrite where
  | dig (v : Nat)
  | seg (v : Option Nat)
  deriving DecidableEq, Repr

/-- The globals the handlers read or write, the interrupt flag register `P2IFG`,
the two output ports and the log of writes made to them. -/
structure State where
  timerGO : Nat
  DisplayValue : Nat
  CurrentDigitPos : Nat
  Hundred_mS : Nat
  counter : Nat
  secCounter : Nat
  P2IFG : Nat
  SEG_PORT : Option Nat
  DIG_PORT : Nat
  portLog : List PortWrite
  deriving DecidableEq, Repr

/-- The state once `main` has run its set-up (`setupP2`, timers) and idles: the
globals hold their initialisers, `P2IFG = 0`, both ports hold `0xFF`; the log of
port writes starts empty here. -/
def powerOn : State :=
  { timerGO := 0, DisplayValue := 0x0000, CurrentDigitPos := 0, Hundred_mS := 0,
    counter := 0, secCounter := 0, P2IFG := 0, SEG_PORT := some 0xFF,
    DIG_PORT := 0xFF, portLog := [] }

/-- Assignment `DIG_PORT = v` (8-bit register). -/
def writeDIG (v : Nat) (s : State) : State :=
  { s with DIG_PORT := v % 256, portLog := s.portLog ++ [PortWrite.dig (v % 256)] }

/-- Assignment `SEG_PORT = v` (8-bit register). -/
def writeSEG (v : Option Nat) (s : State) : State :=
  { s with SEG_PORT := v.map (· % 256),
           portLog := s.portLog ++ [PortWrite.seg (v.map (· % 256))] }

/-! ## Button functions -/

def stop (s : State) : State :=
  { s with timerGO := 0 }

/-- The function `checkVal(int x)`: the argument is not used, the global is read. -/
def checkVal (_x : Nat) (s : State) : State :=
  if s.DisplayValue = 0x9990 then stop s else s

def Button0 (s : State) : State :=
  { s with timerGO := 1, P2IFG := 0 }

def Button1 (s : State) : State :=
  { s with DisplayValue := 0x0000, timerGO := 0, P2IFG := 0 }

def Button2 (s : State) : State :=
  { s with timerGO := 0, P2IFG := 0 }

/-! ## Digit multiplexer -/

/-- The statement `CurrentDigitPos++` on a `char`. -/
def incDigitPos (s : State) : State :=
  { s with CurrentDigitPos := (s.CurrentDigitPos + 1) % 256 }

/-- Table index computed by `WriteDig0`. -/
def index0 (DisplayValue : Nat) : Nat :=
  let temp := 0x000F
  DisplayValue &&& temp

/-- Table index computed by `WriteDig1`. -/
def index1 (DisplayValue : Nat) : Nat :=
  let temp := 0x00F0
  let R1 := DisplayValue &&& temp
  asr16 R1 4

/-- Table index computed by `WriteDig2`. -/
def index2 (DisplayValue : Nat) : Nat :=
  let temp := 0x0F00
  let R1 := DisplayValue &&& temp
  asr16 R1 8 ||| shl16 R1 8

/-- Table index computed by the generic (last) branch of `WriteDig3` from the
masked value `R1`. -/
def index3 (R1 : Nat) : Nat :=
  let R1 := asr16 R1 8 ||| shl16 R1 8
  asr16 R1 4

def WriteDig0 (s : State) : State :=
  let s := writeDIG 0xFF s
  let R1 := index0 s.DisplayValue
  let s := writeSEG (readSegPattern R1) s
  let s := writeDIG DIG_0_N s
  incDigitPos s

def WriteDig1 (s : State) : State :=
  let s := writeDIG 0xFF s
  let R1 := index1 s.DisplayValue
  let s := writeSEG (readSegPattern R1) s
  let s := writeDIG DIG_1_N s
  incDigitPos s

def WriteDig2 (s : State) : State :=
  let s := writeDIG 0xFF s
  let R1 := index2 s.DisplayValue
  let s := writeSEG (readSegPattern R1) s
  let s := writeDIG DIG_2_N s
  incDigitPos s

def WriteDig3 (s : State) : State :=
  let s := writeDIG 0xFF s
  let temp := 0xF000
  let R1 := s.DisplayValue &&& temp
  let s :=
    if R1 = 0x8000 then writeSEG (readSegPattern 8) s
    else if R1 = 0x9000 then writeSEG (readSegPattern 9) s
    else if R1 = 0xFFFF then writeSEG (readSegPattern 9) s
    else writeSEG (readSegPattern (index3 R1)) s
  let s := writeDIG DIG_3_N s
  incDigitPos s

def WriteDig4 (s : State) : State :=
  let s := writeDIG 0xFF s
  let R15 := 0xFC
  let s := writeSEG (some R15) s
  let s := writeDIG COL_DG_COM_N s
  incDigitPos s

def WriteNextDigitToDisplay (s : State) : State :=
  if s.CurrentDigitPos = 0 then WriteDig0 s
  else if s.CurrentDigitPos = 1 then WriteDig1 s
  else if s.CurrentDigitPos = 2 then WriteDig2 s
  else if s.CurrentDigitPos = 3 then WriteDig3 s
  else if s.CurrentDigitPos = 4 then WriteDig4 s
  else { s with CurrentDigitPos := 0 }

/-- The fast-timer handler. -/
def Timer_A0_ISR (s : State) : State :=
  WriteNextDigitToDisplay s

/-! ## Elapsed-time counter -/

/-- The slow-timer handler. -/
def Timer_A1_ISR (s : State) : State :=
  let mask1 := 0xF000
  let mask2 := 0xFF00
  let temp := 0xFFF0
  if s.timerGO = 1 then
    let s := { s with Hundred_mS := (s.Hundred_mS + 1) % 256 }
    let s := checkVal s.DisplayValue s
    let s := { s with DisplayValue := (s.DisplayValue + 0x0010) % 0x10000 }
    let s := checkVal s.DisplayValue s
    let s := { s with counter := (s.counter + 1) % 0x10000 }
    let s : State :=
      if s.counter = 10 then
        let s := { s with counter := 0 }
        let s := checkVal s.DisplayValue s
        let s := { s with DisplayValue := (s.DisplayValue + 0x0100) % 0x10000 }
        let s := { s with DisplayValue := s.DisplayValue &&& mask2 }
        let s := checkVal s.DisplayValue s
        { s with secCounter := (s.secCounter + 1) % 0x10000 }
      else s
    if s.secCounter = 10 then
      let s := { s with secCounter := 0 }
      let s := checkVal s.DisplayValue s
      let s := { s with DisplayValue := (s.DisplayValue + 0x1000) % 0x10000 }
      let s := { s with DisplayValue := s.DisplayValue &&& mask1 }
      checkVal s.DisplayValue s
    else
      let s := checkVal s.DisplayValue s
      let s := { s with DisplayValue := s.DisplayValue &&& temp }
      checkVal s.DisplayValue s
  else s

/-- The button dispatcher `Port_2`. -/
def Port_2 (s : State) : State :=
  let s := if PB_0 = s.P2IFG then Button0 s else s
  let s := if PB_1 = s.P2IFG then Button1 s else s
  let s := if PB_2 = s.P2IFG then Button2 s else s
  { s with P2IFG := 0 }

/-- The state after `n` consecutive slow-timer interrupts. -/
def ticks : Nat → State → State
  | 0, s => s
  | n + 1, s => Timer_A1_ISR (ticks n s)

/-- The state after `n` consecutive fast-timer interrupts. -/
def advances : Nat → State → State
  | 0, s => s
  | n + 1, s => WriteNextDigitToDisplay (advances n s)

/-- The state reached on the straight count: `n` ticks after the start button
was pressed in the power-on state, for `n ≤ 999`. -/
def countState (n : Nat) : State :=
  { powerOn with
    timerGO := if n < 999 then 1 else 0
    DisplayValue := 0x1000 * (n / 100) + 0x0100 * ((n / 10) % 10) + 0x0010 * (n % 10)
    Hundred_mS := n % 256
    counter := n % 10
    secCounter := (n / 10) % 10 }

/-! ## Auxiliary definitions for the statements and proofs -/

/-- The four fields the slow-timer handler's control flow depends on. -/
def core (s : State) : Nat × Nat × Nat × Nat :=
  (s.timerGO, s.DisplayValue, s.counter, s.secCounter)

/-- The select lines (bits 0-4 of a digit-select value, active low) that are
asserted. -/
def assertedLines (v : Nat) : List Nat :=
  (List.range 5).filter (fun i => !v.testBit i)

/-- What one multiplexer routine does to the ports: three writes, the first
deasserting every select line, then the segment pattern, then the select value
`v`; the cursor moves on by one and the display value is not touched. -/
def DrawsWith (v : Nat) (s t : State) : Prop :=
  t.portLog = s.portLog ++ [PortWrite.dig 0xFF, PortWrite.seg t.SEG_PORT, PortWrite.dig v]
  ∧ t.DIG_PORT = v
  ∧ t.CurrentDigitPos = (s.CurrentDigitPos + 1) % 256
  ∧ t.DisplayValue = s.DisplayValue

/-- The canonical 7-segment codes of the digits 0..9 as the specification of the
Display Encoder lists them (bit 0 = segment A, ..., bit 6 = segment G, bit 7 =
decimal point, a set bit meaning the segment is lit); the table of the source is
compared with this list. -/
def sevenSegmentCode : List Nat :=
  [0x3F, 0x06, 0x5B, 0x4F, 0x66, 0x6D, 0x7D, 0x07, 0x7F, 0x67]

/-- The handlers that interrupts can run: the slow-timer tick, the three button
functions and the fast-timer multiplexer step. -/
inductive Handler where
  | tick
  | start
  | reset
  | stop
  | advance
  deriving DecidableEq, Repr

/-- The function a handler runs. -/
def Handler.run : Handler → State → State
  | Handler.tick => Timer_A1_ISR
  | Handler.start => Button0
  | Handler.reset => Button1
  | Handler.stop => Button2
  | Handler.advance => WriteNextDigitToDisplay

/-- Run a sequence of handlers, first to last, each to completion. -/
def runAll : List Handler → State → State
  | [], s => s
  | h :: hs, s => runAll hs (h.run s)

/-- A state is reachable when some finite sequence of handlers leads to it from
the power-on state. -/
def Reachable (s : State) : Prop :=
  ∃ hs : List Handler, runAll hs powerOn = s

/-- First part of the running branch of `Timer_A1_ISR`, named for the proofs:
`Hundred_mS++`, the `+ 0x0010` step between two `checkVal` calls, `counter++`. -/
def tickStep (s : State) : State :=
  let s := { s with Hundred_mS := (s.Hundred_mS + 1) % 256 }
  let s := checkVal s.DisplayValue s
  let s := { s with DisplayValue := (s.DisplayValue + 0x0010) % 0x10000 }
  let s := checkVal s.DisplayValue s
  { s with counter := (s.counter + 1) % 0x10000 }

/-- Second part of the running branch of `Timer_A1_ISR`: the block under
`if(counter == 10)`. -/
def tickUnitsCarry (s : State) : State :=
  if s.counter = 10 then
    let s := { s with counter := 0 }
    let s := checkVal s.DisplayValue s
    let s := { s with DisplayValue := (s.DisplayValue + 0x0100) % 0x10000 }
    let s := { s with DisplayValue := s.DisplayValue &&& 0xFF00 }
    let s := checkVal s.DisplayValue s
    { s with secCounter := (s.secCounter + 1) % 0x10000 }
  else s

/-- Last part of the running branch of `Timer_A1_ISR`: the block under
`if(secCounter == 10)` and its `else`. -/
def tickTensCarry (s : State) : State :=
  if s.secCounter = 10 then
    let s := { s with secCounter := 0 }
    let s := checkVal s.DisplayValue s
    let s := { s with DisplayValue := (s.DisplayValue + 0x1000) % 0x10000 }
    let s := { s with DisplayValue := s.DisplayValue &&& 0xF000 }
    checkVal s.DisplayValue s
  else
    let s := checkVal s.DisplayValue s
    let s := { s with DisplayValue := s.DisplayValue &&& 0xFFF0 }
    checkVal s.DisplayValue s

/-! ## Masks as arithmetic -/

theorem land_block (x n m : Nat) :
    x &&& (2 ^ n * (2 ^ m - 1)) = 2 ^ n * ((x / 2 ^ n) % 2 ^ m) := by
  apply Nat.eq_of_testBit_eq
  intro i
  simp only [Nat.testBit_and, Nat.testBit_mul_pow_two, Nat.testBit_two_pow_sub_one,
    Nat.testBit_mod_two_pow, ← Nat.shiftRight_eq_div_pow, Nat.testBit_shiftRight]
  by_cases h : n ≤ i
  · have e : n + (i - n) = i := by omega
    simp [h, e, Bool.and_comm]
  · simp [h]

theorem land_FFF0 (x : Nat) : x &&& 0xFFF0 = 16 * ((x / 16) % 4096) :=
  land_block x 4 12

theorem land_FF00 (x : Nat) : x &&& 0xFF00 = 256 * ((x / 256) % 256) :=
  land_block x 8 8

theorem land_F000 (x : Nat) : x &&& 0xF000 = 4096 * ((x / 4096) % 16) :=
  land_block x 12 4

theorem land_000F (x : Nat) : x &&& 0x000F = x % 16 :=
  Nat.and_pow_two_sub_one_eq_mod x 4

theorem land_00F0 (x : Nat) : x &&& 0x00F0 = 16 * ((x / 16) % 16) :=
  land_block x 4 4

theorem land_0F00 (x : Nat) : x &&& 0x0F00 = 256 * ((x / 256) % 16) :=
  land_block x 8 4

/-! ## The straight count -/

set_option maxRecDepth 100000 in
theorem countState_step_all :
    ∀ n : Fin 999, Timer_A1_ISR (countState n.val) = countState (n.val + 1) := by
  decide

theorem countState_step (n : Nat) (h : n < 999) :
    Timer_A1_ISR (countState n) = countState (n + 1) :=
  countState_step_all ⟨n, h⟩

theorem countState_zero : Button0 powerOn = countState 0 := by
  decide

theorem countState_final : Timer_A1_ISR (countState 999) = countState 999 := by
  decide

/-- While counting, `n` ticks after the start lead to `countState n`. -/
theorem ticks_countState (n : Nat) (h : n ≤ 999) :
    ticks n (Button0 powerOn) = countState n := by
  induction n with
  | zero => exact countState_zero
  | succ k ih =>
    have hk : k < 999 := by omega
    rw [ticks, ih (by omega)]
    exact countState_step k hk

/-- From the 999th tick on the state no longer moves. -/
theorem ticks_countState_final (k : Nat) :
    ticks (999 + k) (Button0 powerOn) = countState 999 := by
  induction k with
  | zero => exact ticks_countState 999 (le_refl _)
  | succ j ih =>
    have e : 999 + (j + 1) = (999 + j) + 1 := by omega
    rw [e, ticks, ih]
    exact countState_final

theorem countState_not_terminal (n : Nat) (h : n < 999) :
    (countState n).DisplayValue ≠ 0x9990 := by
  simp only [countState]
  omega

/-- C1: started in the power-on state and left alone, after `n ≤ 999` ticks the
display value holds the three decimal digits of `n`, one per 4-bit field, above
an all-zero low field. -/
theorem display_after_n_ticks (n : Nat) (h : n ≤ 999) :
    (ticks n (Button0 powerOn)).DisplayValue
      = 0x1000 * (n / 100) + 0x0100 * ((n / 10) % 10) + 0x0010 * (n % 10) := by
  rw [ticks_countState n h]
  rfl

theorem display_after_n_ticks_witness :
    457 ≤ 999 ∧ (ticks 457 (Button0 powerOn)).DisplayValue = 0x4570 :=
  ⟨by decide, display_after_n_ticks 457 (by decide)⟩

/-- C2: on the straight count the display value is not `0x9990` and the run flag
is 1 before the 999th tick; the 999th tick makes the display value `0x9990` and
clears the run flag; after any `m ≥ 999` ticks the display value is still
`0x9990` and the run flag still 0. -/
theorem auto_stop_at_terminal (m : Nat) (h : 999 ≤ m) :
    (∀ n, n < 999 → (ticks n (Button0 powerOn)).DisplayValue ≠ 0x9990
        ∧ (ticks n (Button0 powerOn)).timerGO = 1)
    ∧ (ticks 999 (Button0 powerOn)).DisplayValue = 0x9990
    ∧ (ticks 999 (Button0 powerOn)).timerGO = 0
    ∧ (ticks m (Button0 powerOn)).DisplayValue = 0x9990
    ∧ (ticks m (Button0 powerOn)).timerGO = 0 := by
  refine ⟨?_, ?_, ?_, ?_, ?_⟩
  · intro n hn
    rw [ticks_countState n (by omega)]
    refine ⟨countState_not_terminal n hn, ?_⟩
    simp [countState, hn]
  · rw [ticks_countState 999 (le_refl _)]; rfl
  · rw [ticks_countState 999 (le_refl _)]; rfl
  · obtain ⟨k, rfl⟩ := Nat.exists_eq_add_of_le h
    rw [ticks_countState_final k]; rfl
  · obtain ⟨k, rfl⟩ := Nat.exists_eq_add_of_le h
    rw [ticks_countState_final k]; rfl

theorem auto_stop_at_terminal_witness :
    999 ≤ 2500
    ∧ (∀ n, n < 999 → (ticks n (Button0 powerOn)).DisplayValue ≠ 0x9990
        ∧ (ticks n (Button0 powerOn)).timerGO = 1)
    ∧ (ticks 999 (Button0 powerOn)).DisplayValue = 0x9990
    ∧ (ticks 999 (Button0 powerOn)).timerGO = 0
    ∧ (ticks 2500 (Button0 powerOn)).DisplayValue = 0x9990
    ∧ (ticks 2500 (Button0 powerOn)).timerGO = 0 :=
  ⟨by decide, auto_stop_at_terminal 2500 (by decide)⟩

/-- C3: the start button pressed after the automatic stop gives a state with
display value `0x9990` and run flag 1; the next tick clears the run flag but
still runs its increments and both carries, leaving the display value `0xA000`. -/
theorem tick_at_terminal_when_running :
    (Button0 (ticks 999 (Button0 powerOn))).DisplayValue = 0x9990
    ∧ (Button0 (ticks 999 (Button0 powerOn))).timerGO = 1
    ∧ (Timer_A1_ISR (Button0 (ticks 999 (Button0 powerOn)))).DisplayValue = 0xA000
    ∧ (Timer_A1_ISR (Button0 (ticks 999 (Button0 powerOn)))).timerGO = 0 := by
  rw [ticks_countState 999 (le_refl _)]
  decide

/-! ## Frame properties of the handlers -/

theorem Timer_A1_ISR_of_not_running (s : State) (h : s.timerGO ≠ 1) :
    Timer_A1_ISR s = s := by
  simp [Timer_A1_ISR, h]

theorem ticks_of_not_running (s : State) (h : s.timerGO ≠ 1) (n : Nat) :
    ticks n s = s := by
  induction n with
  | zero => rfl
  | succ k ih => rw [ticks, ih]; exact Timer_A1_ISR_of_not_running s h

/-- C4: with the run flag 0 a tick changes nothing at all (the whole state,
hence `DisplayValue`, `timerGO`, `counter`, `secCounter` and `Hundred_mS`, is
the same), and so does any number of consecutive ticks, 10 among them. -/
theorem tick_noop_when_stopped (s : State) (h : s.timerGO = 0) :
    Timer_A1_ISR s = s
    ∧ (∀ n, ticks n s = s)
    ∧ (ticks 10 s).DisplayValue = s.DisplayValue := by
  have h1 : s.timerGO ≠ 1 := by omega
  refine ⟨Timer_A1_ISR_of_not_running s h1, ticks_of_not_running s h1, ?_⟩
  rw [ticks_of_not_running s h1]

theorem tick_noop_when_stopped_witness :
    (Button2 (ticks 37 (Button0 powerOn))).timerGO = 0
    ∧ Timer_A1_ISR (Button2 (ticks 37 (Button0 powerOn)))
        = Button2 (ticks 37 (Button0 powerOn))
    ∧ (∀ n, ticks n (Button2 (ticks 37 (Button0 powerOn)))
        = Button2 (ticks 37 (Button0 powerOn)))
    ∧ (ticks 10 (Button2 (ticks 37 (Button0 powerOn)))).DisplayValue
        = (Button2 (ticks 37 (Button0 powerOn))).DisplayValue :=
  ⟨rfl, tick_noop_when_stopped (Button2 (ticks 37 (Button0 powerOn))) rfl⟩

/-- C5: whatever the prior state, the reset button leaves the display value 0
and the run flag 0. -/
theorem reset_zeroes_and_stops (s : State) :
    (Button1 s).DisplayValue = 0 ∧ (Button1 s).timerGO = 0 :=
  ⟨rfl, rfl⟩

/-- C6: whatever the prior state, the stop button leaves the run flag 0 and
keeps `DisplayValue`, `counter`, `secCounter` and `CurrentDigitPos` (and also
`Hundred_mS`, both ports and the port log) as they were. -/
theorem stop_button_only_pauses (s : State) :
    (Button2 s).timerGO = 0
    ∧ (Button2 s).DisplayValue = s.DisplayValue
    ∧ (Button2 s).counter = s.counter
    ∧ (Button2 s).secCounter = s.secCounter
    ∧ (Button2 s).CurrentDigitPos = s.CurrentDigitPos
    ∧ (Button2 s).Hundred_mS = s.Hundred_mS
    ∧ (Button2 s).SEG_PORT = s.SEG_PORT
    ∧ (Button2 s).DIG_PORT = s.DIG_PORT
    ∧ (Button2 s).portLog = s.portLog :=
  ⟨rfl, rfl, rfl, rfl, rfl, rfl, rfl, rfl, rfl⟩

theorem WriteNextDigitToDisplay_timerGO (s : State) :
    (WriteNextDigitToDisplay s).timerGO = s.timerGO := by
  unfold WriteNextDigitToDisplay
  split_ifs
  · rfl
  · rfl
  · rfl
  · unfold WriteDig3
    simp only []
    split_ifs <;> rfl
  · rfl
  · rfl

/-- C7: the start button sets the run flag to 1 from every state `s` and keeps
the display value; from every state `t` whose run flag is 0, the tick, the reset
button, the stop button and the multiplexer step all return with the run flag
still 0. -/
theorem run_flag_set_only_by_start (s t : State) (h : t.timerGO = 0) :
    (Button0 s).timerGO = 1
    ∧ (Button0 s).DisplayValue = s.DisplayValue
    ∧ (Timer_A1_ISR t).timerGO = 0
    ∧ (Button1 t).timerGO = 0
    ∧ (Button2 t).timerGO = 0
    ∧ (WriteNextDigitToDisplay t).timerGO = 0 := by
  refine ⟨rfl, rfl, ?_, rfl, rfl, ?_⟩
  · rw [Timer_A1_ISR_of_not_running t (by omega)]; exact h
  · rw [WriteNextDigitToDisplay_timerGO]; exact h

theorem run_flag_set_only_by_start_witness :
    (Button2 (ticks 37 (Button0 powerOn))).timerGO = 0
    ∧ (Button0 (ticks 12 (Button0 powerOn))).timerGO = 1
    ∧ (Button0 (ticks 12 (Button0 powerOn))).DisplayValue
        = (ticks 12 (Button0 powerOn)).DisplayValue
    ∧ (Timer_A1_ISR (Button2 (ticks 37 (Button0 powerOn)))).timerGO = 0
    ∧ (Button1 (Button2 (ticks 37 (Button0 powerOn)))).timerGO = 0
    ∧ (Button2 (Button2 (ticks 37 (Button0 powerOn)))).timerGO = 0
    ∧ (WriteNextDigitToDisplay (Button2 (ticks 37 (Button0 powerOn)))).timerGO = 0 :=
  ⟨rfl, run_flag_set_only_by_start (ticks 12 (Button0 powerOn))
    (Button2 (ticks 37 (Button0 powerOn))) rfl⟩

/-! ## One tick, case by case, below `0x8000` -/

theorem Timer_A1_ISR_plain (s : State) (hgo : s.timerGO = 1)
    (hd : s.DisplayValue < 0x8000)
    (hc : (s.counter + 1) % 0x10000 ≠ 10) (hk : s.secCounter ≠ 10) :
    Timer_A1_ISR s =
      { s with Hundred_mS := (s.Hundred_mS + 1) % 256
               DisplayValue := 16 * ((s.DisplayValue + 16) / 16 % 4096)
               counter := (s.counter + 1) % 0x10000 } := by
  have h1 : s.DisplayValue ≠ 0x9990 := by omega
  have h2 : (s.DisplayValue + 0x0010) % 0x10000 ≠ 0x9990 := by omega
  have h3 : 16 * ((s.DisplayValue + 0x0010) % 0x10000 / 16 % 4096) ≠ 0x9990 := by omega
  have e : 16 * ((s.DisplayValue + 0x0010) % 0x10000 / 16 % 4096)
      = 16 * ((s.DisplayValue + 16) / 16 % 4096) := by omega
  have h4 : 16 * ((s.DisplayValue + 16) / 16 % 4096) ≠ 0x9990 := by omega
  simp only [Timer_A1_ISR, checkVal, hgo, land_FFF0, h1, h2, h3, hc, hk, ↓reduceIte, e, h4]

theorem Timer_A1_ISR_secOnly (s : State) (hgo : s.timerGO = 1)
    (hd : s.DisplayValue < 0x8000)
    (hc : (s.counter + 1) % 0x10000 ≠ 10) (hk : s.secCounter = 10) :
    Timer_A1_ISR s =
      { s with Hundred_mS := (s.Hundred_mS + 1) % 256
               DisplayValue := 4096 * ((s.DisplayValue + 16 + 4096) / 4096 % 16)
               counter := (s.counter + 1) % 0x10000
               secCounter := 0 } := by
  have h1 : s.DisplayValue ≠ 0x9990 := by omega
  have h2 : (s.DisplayValue + 0x0010) % 0x10000 ≠ 0x9990 := by omega
  have h3 : 4096 * (((s.DisplayValue + 0x0010) % 0x10000 + 0x1000) % 0x10000 / 4096 % 16)
      ≠ 0x9990 := by omega
  have e : 4096 * (((s.DisplayValue + 0x0010) % 0x10000 + 0x1000) % 0x10000 / 4096 % 16)
      = 4096 * ((s.DisplayValue + 16 + 4096) / 4096 % 16) := by omega
  have h4 : 4096 * ((s.DisplayValue + 16 + 4096) / 4096 % 16) ≠ 0x9990 := by omega
  simp only [Timer_A1_ISR, checkVal, hgo, land_F000, h1, h2, h3, hc, hk, ↓reduceIte, e, h4]

theorem Timer_A1_ISR_carry (s : State) (hgo : s.timerGO = 1)
    (hd : s.DisplayValue < 0x8000)
    (hc : (s.counter + 1) % 0x10000 = 10) (hk : (s.secCounter + 1) % 0x10000 ≠ 10) :
    Timer_A1_ISR s =
      { s with Hundred_mS := (s.Hundred_mS + 1) % 256
               DisplayValue := 256 * ((s.DisplayValue + 16 + 256) / 256 % 256)
               counter := 0
               secCounter := (s.secCounter + 1) % 0x10000 } := by
  have h1 : s.DisplayValue ≠ 0x9990 := by omega
  have h2 : (s.DisplayValue + 0x0010) % 0x10000 ≠ 0x9990 := by omega
  have h3 : 256 * (((s.DisplayValue + 0x0010) % 0x10000 + 0x0100) % 0x10000 / 256 % 256)
      ≠ 0x9990 := by omega
  have e : 16 * (256 * (((s.DisplayValue + 0x0010) % 0x10000 + 0x0100) % 0x10000 / 256 % 256)
        / 16 % 4096)
      = 256 * ((s.DisplayValue + 16 + 256) / 256 % 256) := by omega
  have h4 : 256 * ((s.DisplayValue + 16 + 256) / 256 % 256) ≠ 0x9990 := by omega
  simp only [Timer_A1_ISR, checkVal, hgo, land_FF00, land_FFF0, h1, h2, h3, hc, hk,
    ↓reduceIte, e, h4]

theorem Timer_A1_ISR_carryBoth (s : State) (hgo : s.timerGO = 1)
    (hd : s.DisplayValue < 0x8000)
    (hc : (s.counter + 1) % 0x10000 = 10) (hk : (s.secCounter + 1) % 0x10000 = 10) :
    Timer_A1_ISR s =
      { s with Hundred_mS := (s.Hundred_mS + 1) % 256
               DisplayValue := 4096 * ((s.DisplayValue + 16 + 256 + 4096) / 4096 % 16)
               counter := 0
               secCounter := 0 } := by
  have h1 : s.DisplayValue ≠ 0x9990 := by omega
  have h2 : (s.DisplayValue + 0x0010) % 0x10000 ≠ 0x9990 := by omega
  have h3 : 256 * (((s.DisplayValue + 0x0010) % 0x10000 + 0x0100) % 0x10000 / 256 % 256)
      ≠ 0x9990 := by omega
  have e : 4096 * ((256 * (((s.DisplayValue + 0x0010) % 0x10000 + 0x0100) % 0x10000 / 256 % 256)
        + 0x1000) % 0x10000 / 4096 % 16)
      = 4096 * ((s.DisplayValue + 16 + 256 + 4096) / 4096 % 16) := by omega
  have h4 : 4096 * ((s.DisplayValue + 16 + 256 + 4096) / 4096 % 16) ≠ 0x9990 := by omega
  simp only [Timer_A1_ISR, checkVal, hgo, land_FF00, land_F000, h1, h2, h3, hc, hk,
    ↓reduceIte, e, h4]

theorem ticks_add (a b : Nat) (s : State) : ticks (a + b) s = ticks a (ticks b s) := by
  induction a with
  | zero => simp [ticks]
  | succ n ih =>
    have e : n + 1 + b = (n + b) + 1 := by omega
    rw [e, ticks, ih, ticks]

theorem core_eq_iff (s : State) (g d c k : Nat) :
    core s = (g, d, c, k)
      ↔ s.timerGO = g ∧ s.DisplayValue = d ∧ s.counter = c ∧ s.secCounter = k := by
  simp [core]

theorem core_tick_plain {s : State} {d c k : Nat} (h : core s = (1, d, c, k))
    (hd : d < 0x8000) (hc : (c + 1) % 0x10000 ≠ 10) (hk : k ≠ 10) :
    core (Timer_A1_ISR s) = (1, 16 * ((d + 16) / 16 % 4096), (c + 1) % 0x10000, k) := by
  obtain ⟨h1, h2, h3, h4⟩ := (core_eq_iff s 1 d c k).mp h
  subst h2 h3 h4
  rw [Timer_A1_ISR_plain s h1 hd hc hk]
  simp [core, h1]

theorem core_tick_secOnly {s : State} {d c k : Nat} (h : core s = (1, d, c, k))
    (hd : d < 0x8000) (hc : (c + 1) % 0x10000 ≠ 10) (hk : k = 10) :
    core (Timer_A1_ISR s)
      = (1, 4096 * ((d + 16 + 4096) / 4096 % 16), (c + 1) % 0x10000, 0) := by
  obtain ⟨h1, h2, h3, h4⟩ := (core_eq_iff s 1 d c k).mp h
  subst h2 h3
  rw [Timer_A1_ISR_secOnly s h1 hd hc (h4.trans hk)]
  simp [core, h1]

theorem core_tick_carry {s : State} {d c k : Nat} (h : core s = (1, d, c, k))
    (hd : d < 0x8000) (hc : (c + 1) % 0x10000 = 10) (hk : (k + 1) % 0x10000 ≠ 10) :
    core (Timer_A1_ISR s)
      = (1, 256 * ((d + 16 + 256) / 256 % 256), 0, (k + 1) % 0x10000) := by
  obtain ⟨h1, h2, h3, h4⟩ := (core_eq_iff s 1 d c k).mp h
  subst h2 h3 h4
  rw [Timer_A1_ISR_carry s h1 hd hc hk]
  simp [core, h1]

theorem core_tick_carryBoth {s : State} {d c k : Nat} (h : core s = (1, d, c, k))
    (hd : d < 0x8000) (hc : (c + 1) % 0x10000 = 10) (hk : (k + 1) % 0x10000 = 10) :
    core (Timer_A1_ISR s)
      = (1, 4096 * ((d + 16 + 256 + 4096) / 4096 % 16), 0, 0) := by
  obtain ⟨h1, h2, h3, h4⟩ := (core_eq_iff s 1 d c k).mp h
  subst h2 h3 h4
  rw [Timer_A1_ISR_carryBoth s h1 hd hc hk]
  simp [core, h1]

/-- A run of `j` ticks none of which meets a carry. -/
theorem core_ticks_plain (j : Nat) {s : State} {d c k : Nat} (h : core s = (1, d, c, k))
    (h16 : d % 16 = 0) (hd : d + 16 * j < 0x8000) (hcw : c < 0x10000)
    (hc : ∀ i, i < j → (c + i + 1) % 0x10000 ≠ 10) (hk : k ≠ 10) :
    core (ticks j s) = (1, d + 16 * j, (c + j) % 0x10000, k) := by
  induction j with
  | zero =>
    have e : (c + 0) % 0x10000 = c := by omega
    rw [ticks, h, e]
    rfl
  | succ n ih =>
    have ih1 := ih (by omega) (fun i hi => hc i (by omega))
    have hcn := hc n (by omega)
    have step := core_tick_plain ih1 (by omega) (by omega) hk
    rw [ticks, step]
    have e1 : 16 * ((d + 16 * n + 16) / 16 % 4096) = d + 16 * (n + 1) := by omega
    have e2 : ((c + n) % 0x10000 + 1) % 0x10000 = (c + (n + 1)) % 0x10000 := by omega
    rw [e1, e2]


theorem core_display {s : State} {g d c k : Nat} (h : core s = (g, d, c, k)) :
    s.DisplayValue = d :=
  ((core_eq_iff s g d c k).mp h).2.1

/-- The display value ten ticks after a state with display value 0 and run flag 1,
by the contents of the two carry counters. -/
theorem ten_ticks_display (s : State) (hDV : s.DisplayValue = 0) (hGO : s.timerGO = 1)
    (hcw : s.counter < 0x10000) (hkw : s.secCounter < 0x10000) :
    (ticks 10 s).DisplayValue =
      if 10 ≤ s.counter then (if s.secCounter = 10 then 0x1090 else 0x00A0)
      else if s.secCounter = 10 then
        (if s.counter = 9 then 0x0190 else 0x1100 + 16 * s.counter)
      else if s.secCounter = 9 then 0x1000 + 16 * s.counter
      else 0x0100 + 16 * s.counter := by
  have h0 : core s = (1, 0, s.counter, s.secCounter) :=
    (core_eq_iff s _ _ _ _).mpr ⟨hGO, hDV, rfl, rfl⟩
  generalize s.counter = c at *
  generalize s.secCounter = k at *
  by_cases hc10 : 10 ≤ c
  · by_cases hk10 : k = 10
    · have h1 := core_tick_secOnly h0 (by omega) (by omega) hk10
      have h9 := core_ticks_plain 9 h1 (by omega) (by omega) (by omega)
        (fun i hi => by omega) (by omega)
      have e : ticks 10 s = ticks 9 (Timer_A1_ISR s) := ticks_add 9 1 s
      rw [e, core_display h9]
      simp [hc10, hk10]
    · have h10 := core_ticks_plain 10 h0 (by omega) (by omega) hcw
        (fun i hi => by omega) hk10
      rw [core_display h10]
      simp [hc10, hk10]
  · have hsplit : ticks 10 s = ticks c (Timer_A1_ISR (ticks (9 - c) s)) := by
      have := ticks_add c ((9 - c) + 1) s
      have e : c + ((9 - c) + 1) = 10 := by omega
      rw [e] at this
      exact this
    by_cases hk10 : k = 10
    · by_cases hc9 : c = 9
      · subst hc9
        have h1 := core_tick_carry h0 (by omega) (by omega) (by omega)
        have h9 := core_ticks_plain 9 h1 (by omega) (by omega) (by omega)
          (fun i hi => by omega) (by omega)
        have e : ticks 10 s = ticks 9 (Timer_A1_ISR s) := ticks_add 9 1 s
        rw [e, core_display h9]
        simp [hk10]
      · have h1 := core_tick_secOnly h0 (by omega) (by omega) hk10
        have h2 := core_ticks_plain (8 - c) h1 (by omega) (by omega) (by omega)
          (fun i hi => by omega) (by omega)
        have h3 := core_tick_carry h2 (by omega) (by omega) (by omega)
        have h4 := core_ticks_plain c h3 (by omega) (by omega) (by omega)
          (fun i hi => by omega) (by omega)
        have e : ticks 10 s
            = ticks c (Timer_A1_ISR (ticks (8 - c) (Timer_A1_ISR s))) := by
          have a1 := ticks_add c ((8 - c) + 1 + 1) s
          have a2 := ticks_add (8 - c) 1 s
          have e1 : c + ((8 - c) + 1 + 1) = 10 := by omega
          rw [e1] at a1
          rw [a1]
          show ticks c (Timer_A1_ISR (ticks (8 - c + 1) s)) = _
          rw [a2]
          rfl
        rw [e, core_display h4]
        simp [hc10, hk10, hc9]
        omega
    · by_cases hk9 : k = 9
      · have h1 := core_ticks_plain (9 - c) h0 (by omega) (by omega) hcw
          (fun i hi => by omega) hk10
        have h2 := core_tick_carryBoth h1 (by omega) (by omega) (by omega)
        have h3 := core_ticks_plain c h2 (by omega) (by omega) (by omega)
          (fun i hi => by omega) (by omega)
        rw [hsplit, core_display h3]
        simp [hc10, hk10, hk9]
        omega
      · have h1 := core_ticks_plain (9 - c) h0 (by omega) (by omega) hcw
          (fun i hi => by omega) hk10
        have h2 := core_tick_carry h1 (by omega) (by omega) (by omega)
        have h3 := core_ticks_plain c h2 (by omega) (by omega) (by omega)
          (fun i hi => by omega) (by omega)
        rw [hsplit, core_display h3]
        simp [hc10, hk10, hk9]
        omega

/-- C8: pressing reset and start five ticks into a run gives a state with display
value 0 and run flag 1 in which `counter` is still 5, because the reset button
leaves the carry counters alone; ten ticks later the display value is `0x0150`,
not `0x0100`.  With reset and start pressed ninety ticks into a run `secCounter`
is still 9 and ten ticks give `0x1000`. -/
theorem ten_ticks_after_midrun_reset :
    (Button0 (Button1 (ticks 5 (Button0 powerOn)))).DisplayValue = 0
    ∧ (Button0 (Button1 (ticks 5 (Button0 powerOn)))).timerGO = 1
    ∧ (Button0 (Button1 (ticks 5 (Button0 powerOn)))).counter = 5
    ∧ (ticks 10 (Button0 (Button1 (ticks 5 (Button0 powerOn))))).DisplayValue = 0x0150
    ∧ ¬ (ticks 10 (Button0 (Button1 (ticks 5 (Button0 powerOn))))).DisplayValue = 0x0100
    ∧ (Button0 (Button1 (ticks 90 (Button0 powerOn)))).DisplayValue = 0
    ∧ (Button0 (Button1 (ticks 90 (Button0 powerOn)))).timerGO = 1
    ∧ (Button0 (Button1 (ticks 90 (Button0 powerOn)))).secCounter = 9
    ∧ (ticks 10 (Button0 (Button1 (ticks 90 (Button0 powerOn))))).DisplayValue = 0x1000
    ∧ ¬ (ticks 10 (Button0 (Button1 (ticks 90 (Button0 powerOn))))).DisplayValue = 0x0100 := by
  rw [ticks_countState 5 (by decide), ticks_countState 90 (by decide)]
  decide

/-- Where the carry counters agree with a display value of 0, ten ticks do carry
once: from every state with display value 0 and run flag 1 in which `counter` is
0 and `secCounter` (a 16-bit value) is neither 9 nor 10, ten consecutive ticks
produce exactly one carry into the seconds-units field: the
first nine only step the hundredths field (display value `0x0010 * j` after `j`
of them, `secCounter` unchanged), and after the tenth the display value is
`0x0100`, `counter` is back to 0 and `secCounter` has advanced by one (as a
16-bit value). -/
theorem one_carry_after_ten_ticks (s : State) (hDV : s.DisplayValue = 0)
    (hGO : s.timerGO = 1) (hc : s.counter = 0) (hkw : s.secCounter < 0x10000)
    (hk9 : s.secCounter ≠ 9) (hk10 : s.secCounter ≠ 10) :
    (∀ j, j ≤ 9 → (ticks j s).DisplayValue = 0x0010 * j
        ∧ (ticks j s).secCounter = s.secCounter)
    ∧ (ticks 10 s).DisplayValue = 0x0100
    ∧ (ticks 10 s).counter = 0
    ∧ (ticks 10 s).secCounter = (s.secCounter + 1) % 0x10000
    ∧ (ticks 10 s).timerGO = 1 := by
  have h0 : core s = (1, 0, 0, s.secCounter) :=
    (core_eq_iff s _ _ _ _).mpr ⟨hGO, hDV, hc, rfl⟩
  have run : ∀ j, j ≤ 9 → core (ticks j s) = (1, 0 + 16 * j, (0 + j) % 0x10000, s.secCounter) :=
    fun j hj => core_ticks_plain j h0 (by omega) (by omega) (by omega)
      (fun i hi => by omega) hk10
  have h10 := core_tick_carry (run 9 (le_refl _)) (by omega) (by omega) (by omega)
  obtain ⟨g1, g2, g3, g4⟩ := (core_eq_iff _ _ _ _ _).mp h10
  refine ⟨fun j hj => ?_, g2, g3, g4, g1⟩
  obtain ⟨-, f2, -, f4⟩ := (core_eq_iff _ _ _ _ _).mp (run j hj)
  exact ⟨by rw [f2]; omega, f4⟩

theorem one_carry_after_ten_ticks_witness :
    (Button0 powerOn).DisplayValue = 0 ∧ (Button0 powerOn).timerGO = 1
    ∧ (Button0 powerOn).counter = 0 ∧ (Button0 powerOn).secCounter < 0x10000
    ∧ (Button0 powerOn).secCounter ≠ 9 ∧ (Button0 powerOn).secCounter ≠ 10
    ∧ (∀ j, j ≤ 9 → (ticks j (Button0 powerOn)).DisplayValue = 0x0010 * j
        ∧ (ticks j (Button0 powerOn)).secCounter = (Button0 powerOn).secCounter)
    ∧ (ticks 10 (Button0 powerOn)).DisplayValue = 0x0100
    ∧ (ticks 10 (Button0 powerOn)).counter = 0
    ∧ (ticks 10 (Button0 powerOn)).secCounter = ((Button0 powerOn).secCounter + 1) % 0x10000
    ∧ (ticks 10 (Button0 powerOn)).timerGO = 1 :=
  ⟨rfl, rfl, rfl, by decide, by decide, by decide,
    one_carry_after_ten_ticks (Button0 powerOn) rfl rfl rfl (by decide) (by decide)
      (by decide)⟩

/-! ## The multiplexer routines -/

theorem WriteDig0_draws (s : State) : DrawsWith 0xF7 s (WriteDig0 s) := by
  simp [DrawsWith, WriteDig0, writeDIG, writeSEG, incDigitPos]
  decide

theorem WriteDig1_draws (s : State) : DrawsWith 0xFB s (WriteDig1 s) := by
  simp [DrawsWith, WriteDig1, writeDIG, writeSEG, incDigitPos]
  decide

theorem WriteDig2_draws (s : State) : DrawsWith 0xFD s (WriteDig2 s) := by
  simp [DrawsWith, WriteDig2, writeDIG, writeSEG, incDigitPos]
  decide

theorem WriteDig3_draws (s : State) : DrawsWith 0xFE s (WriteDig3 s) := by
  unfold WriteDig3
  simp only []
  split_ifs <;> simp [DrawsWith, writeDIG, writeSEG, incDigitPos] <;> decide

theorem WriteDig4_draws (s : State) : DrawsWith 0xEF s (WriteDig4 s) := by
  simp [DrawsWith, WriteDig4, writeDIG, writeSEG, incDigitPos]
  decide

theorem WriteNextDigitToDisplay_of_pos5 (s : State) (h : s.CurrentDigitPos = 5) :
    WriteNextDigitToDisplay s = { s with CurrentDigitPos := 0 } := by
  simp [WriteNextDigitToDisplay, h]

/-- C9: from a cursor of 0, the first five multiplexer calls run `WriteDig0`,
`WriteDig1`, `WriteDig2`, `WriteDig3`, `WriteDig4` in that order, each once (the
cursor reads 1, 2, 3, 4, 5 after them and the fifteen port writes are the five
draws with select values `0xF7, 0xFB, 0xFD, 0xFE, 0xEF`); the sixth call draws
nothing and only puts the cursor back to 0. -/
theorem multiplexer_round (s : State) (h : s.CurrentDigitPos = 0) :
    advances 1 s = WriteDig0 s
    ∧ advances 2 s = WriteDig1 (WriteDig0 s)
    ∧ advances 3 s = WriteDig2 (WriteDig1 (WriteDig0 s))
    ∧ advances 4 s = WriteDig3 (WriteDig2 (WriteDig1 (WriteDig0 s)))
    ∧ advances 5 s = WriteDig4 (WriteDig3 (WriteDig2 (WriteDig1 (WriteDig0 s))))
    ∧ (advances 1 s).CurrentDigitPos = 1
    ∧ (advances 2 s).CurrentDigitPos = 2
    ∧ (advances 3 s).CurrentDigitPos = 3
    ∧ (advances 4 s).CurrentDigitPos = 4
    ∧ (advances 5 s).CurrentDigitPos = 5
    ∧ (advances 5 s).portLog = s.portLog ++
        [PortWrite.dig 0xFF, PortWrite.seg (advances 1 s).SEG_PORT, PortWrite.dig 0xF7,
         PortWrite.dig 0xFF, PortWrite.seg (advances 2 s).SEG_PORT, PortWrite.dig 0xFB,
         PortWrite.dig 0xFF, PortWrite.seg (advances 3 s).SEG_PORT, PortWrite.dig 0xFD,
         PortWrite.dig 0xFF, PortWrite.seg (advances 4 s).SEG_PORT, PortWrite.dig 0xFE,
         PortWrite.dig 0xFF, PortWrite.seg (advances 5 s).SEG_PORT, PortWrite.dig 0xEF]
    ∧ advances 6 s = { advances 5 s with CurrentDigitPos := 0 }
    ∧ (advances 6 s).CurrentDigitPos = 0 := by
  obtain ⟨l0, -, p0, -⟩ := WriteDig0_draws s
  obtain ⟨l1, -, p1, -⟩ := WriteDig1_draws (WriteDig0 s)
  obtain ⟨l2, -, p2, -⟩ := WriteDig2_draws (WriteDig1 (WriteDig0 s))
  obtain ⟨l3, -, p3, -⟩ := WriteDig3_draws (WriteDig2 (WriteDig1 (WriteDig0 s)))
  obtain ⟨l4, -, p4, -⟩ :=
    WriteDig4_draws (WriteDig3 (WriteDig2 (WriteDig1 (WriteDig0 s))))
  rw [h] at p0
  rw [p0] at p1
  rw [p1] at p2
  rw [p2] at p3
  rw [p3] at p4
  have a1 : advances 1 s = WriteDig0 s := by
    simp [advances, WriteNextDigitToDisplay, h]
  have a2 : advances 2 s = WriteDig1 (WriteDig0 s) := by
    rw [advances, a1]
    simp [WriteNextDigitToDisplay, p0]
  have a3 : advances 3 s = WriteDig2 (WriteDig1 (WriteDig0 s)) := by
    rw [advances, a2]
    simp [WriteNextDigitToDisplay, p1]
  have a4 : advances 4 s = WriteDig3 (WriteDig2 (WriteDig1 (WriteDig0 s))) := by
    rw [advances, a3]
    simp [WriteNextDigitToDisplay, p2]
  have a5 : advances 5 s
      = WriteDig4 (WriteDig3 (WriteDig2 (WriteDig1 (WriteDig0 s)))) := by
    rw [advances, a4]
    simp [WriteNextDigitToDisplay, p3]
  have a6 : advances 6 s = { advances 5 s with CurrentDigitPos := 0 } := by
    rw [advances]
    exact WriteNextDigitToDisplay_of_pos5 _ (by rw [a5]; exact p4)
  refine ⟨a1, a2, a3, a4, a5, ?_, ?_, ?_, ?_, ?_, ?_, a6, ?_⟩
  · rw [a1]; exact p0
  · rw [a2]; exact p1
  · rw [a3]; exact p2
  · rw [a4]; exact p3
  · rw [a5]; exact p4
  · rw [a1, a2, a3, a4, a5, l4, l3, l2, l1, l0]
    simp
  · rw [a6]

theorem multiplexer_round_witness :
    (ticks 457 (Button0 powerOn)).CurrentDigitPos = 0
    ∧ advances 1 (ticks 457 (Button0 powerOn)) = WriteDig0 (ticks 457 (Button0 powerOn))
    ∧ (advances 5 (ticks 457 (Button0 powerOn))).portLog =
        [PortWrite.dig 0xFF, PortWrite.seg (some 0xC0), PortWrite.dig 0xF7,
         PortWrite.dig 0xFF, PortWrite.seg (some 0xF8), PortWrite.dig 0xFB,
         PortWrite.dig 0xFF, PortWrite.seg (some 0x92), PortWrite.dig 0xFD,
         PortWrite.dig 0xFF, PortWrite.seg (some 0x99), PortWrite.dig 0xFE,
         PortWrite.dig 0xFF, PortWrite.seg (some 0xFC), PortWrite.dig 0xEF]
    ∧ (advances 6 (ticks 457 (Button0 powerOn))).CurrentDigitPos = 0 := by
  have hpos : (ticks 457 (Button0 powerOn)).CurrentDigitPos = 0 := by
    rw [ticks_countState 457 (by decide)]; rfl
  have r := multiplexer_round (ticks 457 (Button0 powerOn)) hpos
  refine ⟨hpos, r.1, ?_, r.2.2.2.2.2.2.2.2.2.2.2.2⟩
  rw [ticks_countState 457 (by decide)]
  decide

/-- C10: for every state, hence every display value, each of the five
multiplexer routines makes exactly three port writes: first `0xFF` to the
digit-select port (no select line asserted), then the segment port, last the
select value; in that value exactly one of the select bits 0-4 is 0: bit 3 for
position 0, bit 2 for position 1, bit 1 for position 2, bit 0 for position 3 and
bit 4 for the colon. -/
theorem one_select_line_per_step (s : State) :
    assertedLines 0xFF = []
    ∧ ((WriteDig0 s).portLog = s.portLog ++ [PortWrite.dig 0xFF,
          PortWrite.seg (WriteDig0 s).SEG_PORT, PortWrite.dig (WriteDig0 s).DIG_PORT]
        ∧ (WriteDig0 s).DIG_PORT = 0xF7 ∧ assertedLines (WriteDig0 s).DIG_PORT = [3])
    ∧ ((WriteDig1 s).portLog = s.portLog ++ [PortWrite.dig 0xFF,
          PortWrite.seg (WriteDig1 s).SEG_PORT, PortWrite.dig (WriteDig1 s).DIG_PORT]
        ∧ (WriteDig1 s).DIG_PORT = 0xFB ∧ assertedLines (WriteDig1 s).DIG_PORT = [2])
    ∧ ((WriteDig2 s).portLog = s.portLog ++ [PortWrite.dig 0xFF,
          PortWrite.seg (WriteDig2 s).SEG_PORT, PortWrite.dig (WriteDig2 s).DIG_PORT]
        ∧ (WriteDig2 s).DIG_PORT = 0xFD ∧ assertedLines (WriteDig2 s).DIG_PORT = [1])
    ∧ ((WriteDig3 s).portLog = s.portLog ++ [PortWrite.dig 0xFF,
          PortWrite.seg (WriteDig3 s).SEG_PORT, PortWrite.dig (WriteDig3 s).DIG_PORT]
        ∧ (WriteDig3 s).DIG_PORT = 0xFE ∧ assertedLines (WriteDig3 s).DIG_PORT = [0])
    ∧ ((WriteDig4 s).portLog = s.portLog ++ [PortWrite.dig 0xFF,
          PortWrite.seg (WriteDig4 s).SEG_PORT, PortWrite.dig (WriteDig4 s).DIG_PORT]
        ∧ (WriteDig4 s).DIG_PORT = 0xEF ∧ assertedLines (WriteDig4 s).DIG_PORT = [4]) := by
  obtain ⟨l0, d0, -, -⟩ := WriteDig0_draws s
  obtain ⟨l1, d1, -, -⟩ := WriteDig1_draws s
  obtain ⟨l2, d2, -, -⟩ := WriteDig2_draws s
  obtain ⟨l3, d3, -, -⟩ := WriteDig3_draws s
  obtain ⟨l4, d4, -, -⟩ := WriteDig4_draws s
  refine ⟨by decide, ⟨?_, d0, ?_⟩, ⟨?_, d1, ?_⟩, ⟨?_, d2, ?_⟩, ⟨?_, d3, ?_⟩, ⟨?_, d4, ?_⟩⟩
  · rw [d0]; exact l0
  · rw [d0]; decide
  · rw [d1]; exact l1
  · rw [d1]; decide
  · rw [d2]; exact l2
  · rw [d2]; decide
  · rw [d3]; exact l3
  · rw [d3]; decide
  · rw [d4]; exact l4
  · rw [d4]; decide



/-! ## The Display Encoder and the digit decodes -/

theorem asr16_small (x k : Nat) (h : x < 0x8000) : asr16 x k = x / 2 ^ k := by
  have e : x % 0x10000 = x := Nat.mod_eq_of_lt (by omega)
  simp [asr16, e, h]

theorem index0_eq (dv : Nat) : index0 dv = dv % 16 := by
  simp only [index0, land_000F]

theorem index1_eq (dv : Nat) : index1 dv = dv / 16 % 16 := by
  simp only [index1, land_00F0]
  rw [asr16_small _ _ (by omega)]
  omega

theorem index2_eq (dv : Nat) : index2 dv = dv / 256 % 16 := by
  simp only [index2, land_0F00]
  rw [asr16_small _ _ (by omega)]
  have e : shl16 (256 * (dv / 256 % 16)) 8 = 0 := by
    simp only [shl16]
    omega
  rw [e, Nat.or_zero]
  omega


/-- C11: for every digit `d` in 0..9 the table entry `SegPatternTable[d]`, as the
8 bits that reach the segment port, is the bitwise complement of the 7-segment
code of `d` (`0x3F, 0x06, 0x5B, 0x4F, 0x66, 0x6D, 0x7D, 0x07, 0x7F, 0x67`); no
code has bit 7 (the decimal point) set, so the written bit 7 is always 1; the
listed codes are the constants `ZERO`, `ONE`, ..., `NINE` of the source. -/
theorem segment_table_active_low (s : State) (d : Nat) (h : d ≤ 9) :
    (readSegPattern d).map (· % 256) = (sevenSegmentCode[d]?).map (fun c => 0xFF ^^^ c)
    ∧ (readSegPattern d).isSome = true
    ∧ (writeSEG (readSegPattern d) s).SEG_PORT
        = (sevenSegmentCode[d]?).map (fun c => 0xFF ^^^ c)
    ∧ (sevenSegmentCode[d]?).map (fun c => c.testBit 7) = some false
    ∧ (sevenSegmentCode[d]?).map (fun c => 0xFF ^^^ c)
        = (sevenSegmentCode[d]?).map (fun c => 0xFF - c)
    ∧ sevenSegmentCode = [ZERO, ONE, TWO, THREE, FOUR, FIVE, SIX, SEVEN, EIGHT, NINE] := by
  have key : (readSegPattern d).map (· % 256)
      = (sevenSegmentCode[d]?).map (fun c => 0xFF ^^^ c) := by
    interval_cases d <;> decide
  refine ⟨key, ?_, ?_, ?_, ?_, by decide⟩
  · interval_cases d <;> decide
  · simp only [writeSEG]
    exact key
  · interval_cases d <;> decide
  · interval_cases d <;> decide

theorem segment_table_active_low_witness :
    4 ≤ 9
    ∧ (readSegPattern 4).map (· % 256) = some 0x99
    ∧ (writeSEG (readSegPattern 4) powerOn).SEG_PORT = some (0xFF ^^^ 0x66) := by
  have r := segment_table_active_low powerOn 4 (by decide)
  exact ⟨by decide, r.1, r.2.2.1⟩

theorem WriteDig3_SEG_PORT (s : State) :
    (WriteDig3 s).SEG_PORT =
      if s.DisplayValue &&& 0xF000 = 0x8000 then (readSegPattern 8).map (· % 256)
      else if s.DisplayValue &&& 0xF000 = 0x9000 then (readSegPattern 9).map (· % 256)
      else if s.DisplayValue &&& 0xF000 = 0xFFFF then (readSegPattern 9).map (· % 256)
      else (readSegPattern (index3 (s.DisplayValue &&& 0xF000))).map (· % 256) := by
  simp only [WriteDig3, writeDIG, writeSEG, incDigitPos]
  split_ifs <;> rfl

/-- C12: when the masked high field `DisplayValue & 0xF000` is `0x1000 * d` with
`d` in 0..9, `WriteDig3` sends the table entry of `d` to the segment port.  For
`d` in 0..7 this is the generic shift path, whose index is exactly `d`; for
`0x8000` and `0x9000` it is the patched branch, where the generic path would
have computed an index outside the table (`0xFFF8`, `0xFFF9`, that is -8, -7). -/
theorem digit3_decode (s : State) (d : Nat) (hd : d ≤ 9)
    (h : s.DisplayValue &&& 0xF000 = 0x1000 * d) :
    (WriteDig3 s).SEG_PORT = (readSegPattern d).map (· % 256)
    ∧ (readSegPattern d).isSome = true
    ∧ (d ≤ 7 → index3 (0x1000 * d) = d)
    ∧ index3 0x8000 = 0xFFF8 ∧ index3 0x9000 = 0xFFF9
    ∧ readSegPattern (index3 0x8000) = none
    ∧ readSegPattern (index3 0x9000) = none := by
  refine ⟨?_, ?_, ?_, by decide, by decide, by decide, by decide⟩
  · rw [WriteDig3_SEG_PORT, h]
    interval_cases d <;> decide
  · interval_cases d <;> decide
  · intro h7
    interval_cases d <;> decide

theorem digit3_decode_witness :
    9 ≤ 9 ∧ (countState 999).DisplayValue &&& 0xF000 = 0x1000 * 9
    ∧ (WriteDig3 (countState 999)).SEG_PORT = some 0x98
    ∧ readSegPattern (index3 0x9000) = none := by
  have r := digit3_decode (countState 999) 9 (by decide) (by decide)
  exact ⟨by decide, by decide, r.1, r.2.2.2.2.2.2⟩

/-- C16: for positions 0, 1 and 2 the table index computed by `WriteDig0`,
`WriteDig1`, `WriteDig2` is the 4-bit field of the display value at bits 0-3,
4-7, 8-11, whatever the other fields hold; so when that field holds `d` in 0..9
the routine sends `SegPatternTable[d]` (its low 8 bits) to the segment port. -/
theorem low_digits_decode (s : State) (d : Nat) (hd : d ≤ 9) :
    (s.DisplayValue % 16 = d →
      index0 s.DisplayValue = d
      ∧ (WriteDig0 s).SEG_PORT = (readSegPattern d).map (· % 256))
    ∧ (s.DisplayValue / 16 % 16 = d →
      index1 s.DisplayValue = d
      ∧ (WriteDig1 s).SEG_PORT = (readSegPattern d).map (· % 256))
    ∧ (s.DisplayValue / 256 % 16 = d →
      index2 s.DisplayValue = d
      ∧ (WriteDig2 s).SEG_PORT = (readSegPattern d).map (· % 256))
    ∧ (readSegPattern d).isSome = true := by
  refine ⟨fun h => ?_, fun h => ?_, fun h => ?_, ?_⟩
  · have e := index0_eq s.DisplayValue
    rw [h] at e
    refine ⟨e, ?_⟩
    simp only [WriteDig0, writeDIG, writeSEG, incDigitPos, e]
  · have e := index1_eq s.DisplayValue
    rw [h] at e
    refine ⟨e, ?_⟩
    simp only [WriteDig1, writeDIG, writeSEG, incDigitPos, e]
  · have e := index2_eq s.DisplayValue
    rw [h] at e
    refine ⟨e, ?_⟩
    simp only [WriteDig2, writeDIG, writeSEG, incDigitPos, e]
  · interval_cases d <;> decide

theorem low_digits_decode_witness :
    7 ≤ 9
    ∧ (countState 777).DisplayValue / 16 % 16 = 7
    ∧ (countState 777).DisplayValue / 256 % 16 = 7
    ∧ index1 (countState 777).DisplayValue = 7
    ∧ (WriteDig1 (countState 777)).SEG_PORT = some 0xF8
    ∧ index2 (countState 777).DisplayValue = 7
    ∧ (WriteDig2 (countState 777)).SEG_PORT = some 0xF8 := by
  have r := low_digits_decode (countState 777) 7 (by decide)
  exact ⟨by decide, by decide, by decide, (r.2.1 (by decide)).1, (r.2.1 (by decide)).2,
    (r.2.2.1 (by decide)).1, (r.2.2.1 (by decide)).2⟩

/-- C17: when `P2IFG` equals the mask of one button, `Port_2` does exactly what
that button function does (`0x20`: start, `0x80`: reset, `0x40`: stop) to the
whole state, the run flag and the display value included; when it equals none
of them the run flag and the display value are left alone; in every case
`Port_2` returns with `P2IFG = 0`. -/
theorem port2_dispatch (s : State) :
    (s.P2IFG = 0x20 → Port_2 s = Button0 s)
    ∧ (s.P2IFG = 0x80 → Port_2 s = Button1 s)
    ∧ (s.P2IFG = 0x40 → Port_2 s = Button2 s)
    ∧ (s.P2IFG ≠ 0x20 → s.P2IFG ≠ 0x80 → s.P2IFG ≠ 0x40 →
        Port_2 s = { s with P2IFG := 0 })
    ∧ (Port_2 s).P2IFG = 0 := by
  refine ⟨fun h => ?_, fun h => ?_, fun h => ?_, fun h0 h1 h2 => ?_, rfl⟩
  · simp [Port_2, PB_0, PB_1, PB_2, Button0, h]
  · simp [Port_2, PB_0, PB_1, PB_2, Button1, h]
  · simp [Port_2, PB_0, PB_1, PB_2, Button2, h]
  · simp [Port_2, PB_0, PB_1, PB_2, Ne.symm h0, Ne.symm h1, Ne.symm h2]

theorem port2_dispatch_witness :
    Port_2 { countState 457 with P2IFG := 0x80 } = Button1 { countState 457 with P2IFG := 0x80 }
    ∧ (Port_2 { countState 457 with P2IFG := 0x80 }).DisplayValue = 0
    ∧ (Port_2 { countState 457 with P2IFG := 0x80 }).timerGO = 0
    ∧ (Port_2 { countState 457 with P2IFG := 0x80 }).P2IFG = 0 := by
  have r := port2_dispatch { countState 457 with P2IFG := 0x80 }
  have e := r.2.1 rfl
  exact ⟨e, by rw [e]; rfl, by rw [e]; rfl, r.2.2.2.2⟩


/-! ## Reachable states -/

theorem checkVal_DisplayValue (x : Nat) (s : State) :
    (checkVal x s).DisplayValue = s.DisplayValue := by
  simp only [checkVal, stop]
  split_ifs <;> rfl

/-- The slow-timer handler is the composition of its three parts. -/
theorem Timer_A1_ISR_eq_parts (s : State) :
    Timer_A1_ISR s
      = if s.timerGO = 1 then tickTensCarry (tickUnitsCarry (tickStep s)) else s :=
  rfl

theorem tickTensCarry_low_field (s : State) :
    (tickTensCarry s).DisplayValue % 16 = 0 ∧ (tickTensCarry s).DisplayValue < 0x10000 := by
  simp only [tickTensCarry]
  split_ifs <;> simp only [checkVal_DisplayValue, land_F000, land_FFF0] <;> omega

theorem Timer_A1_ISR_low_field (s : State) (hgo : s.timerGO = 1) :
    (Timer_A1_ISR s).DisplayValue % 16 = 0 ∧ (Timer_A1_ISR s).DisplayValue < 0x10000 := by
  rw [Timer_A1_ISR_eq_parts, if_pos hgo]
  exact tickTensCarry_low_field _

theorem WriteNextDigitToDisplay_DisplayValue (s : State) :
    (WriteNextDigitToDisplay s).DisplayValue = s.DisplayValue := by
  unfold WriteNextDigitToDisplay
  split_ifs
  · exact (WriteDig0_draws s).2.2.2
  · exact (WriteDig1_draws s).2.2.2
  · exact (WriteDig2_draws s).2.2.2
  · exact (WriteDig3_draws s).2.2.2
  · exact (WriteDig4_draws s).2.2.2
  · rfl

/-- Every handler keeps the low 4-bit field of the display value 0 and the
display value within 16 bits. -/
theorem Handler.run_low_field (h : Handler) (s : State)
    (inv : s.DisplayValue % 16 = 0 ∧ s.DisplayValue < 0x10000) :
    (h.run s).DisplayValue % 16 = 0 ∧ (h.run s).DisplayValue < 0x10000 := by
  cases h with
  | tick =>
    by_cases hgo : s.timerGO = 1
    · exact Timer_A1_ISR_low_field s hgo
    · show (Timer_A1_ISR s).DisplayValue % 16 = 0 ∧ (Timer_A1_ISR s).DisplayValue < 0x10000
      rw [Timer_A1_ISR_of_not_running s hgo]
      exact inv
  | start => exact inv
  | reset => exact ⟨rfl, Nat.zero_lt_succ _⟩
  | stop => exact inv
  | advance =>
    show (WriteNextDigitToDisplay s).DisplayValue % 16 = 0
      ∧ (WriteNextDigitToDisplay s).DisplayValue < 0x10000
    rw [WriteNextDigitToDisplay_DisplayValue]
    exact inv

theorem runAll_low_field (hs : List Handler) (s : State)
    (inv : s.DisplayValue % 16 = 0 ∧ s.DisplayValue < 0x10000) :
    (runAll hs s).DisplayValue % 16 = 0 ∧ (runAll hs s).DisplayValue < 0x10000 := by
  induction hs generalizing s with
  | nil => exact inv
  | cons h rest ih => exact ih (h.run s) (Handler.run_low_field h s inv)


theorem tickStep_low_field (s : State)
    (inv : s.DisplayValue % 16 = 0 ∧ s.DisplayValue < 0x10000) :
    (tickStep s).DisplayValue % 16 = 0 ∧ (tickStep s).DisplayValue < 0x10000 := by
  simp only [tickStep, checkVal_DisplayValue]
  omega

theorem tickUnitsCarry_low_field (s : State)
    (inv : s.DisplayValue % 16 = 0 ∧ s.DisplayValue < 0x10000) :
    (tickUnitsCarry s).DisplayValue % 16 = 0
      ∧ (tickUnitsCarry s).DisplayValue < 0x10000 := by
  simp only [tickUnitsCarry]
  split_ifs
  · simp only [checkVal_DisplayValue, land_FF00]
    omega
  · exact inv

theorem land_FFF0_of_low_field (x : Nat) (h : x % 16 = 0 ∧ x < 0x10000) :
    x &&& 0xFFF0 = x := by
  rw [land_FFF0]
  omega

/-- C19: in every state reachable from power-on (by ticks, button functions and
multiplexer steps) the lowest 4-bit field of the display value is 0: the index
`WriteDig0` computes is 0, so the rightmost digit shows the pattern of 0
(`0xC0`), and the mask `& 0xFFF0` changes neither the display value nor, inside
a tick, the value it is applied to (the one left by the increment and the
units carry). -/
theorem low_field_always_zero (s : State) (h : Reachable s) :
    s.DisplayValue &&& 0x000F = 0
    ∧ s.DisplayValue % 16 = 0
    ∧ index0 s.DisplayValue = 0
    ∧ (WriteDig0 s).SEG_PORT = some 0xC0
    ∧ s.DisplayValue &&& 0xFFF0 = s.DisplayValue
    ∧ (tickUnitsCarry (tickStep s)).DisplayValue &&& 0xFFF0
        = (tickUnitsCarry (tickStep s)).DisplayValue := by
  obtain ⟨hs, rfl⟩ := h
  have inv := runAll_low_field hs powerOn ⟨rfl, by decide⟩
  have e0 : index0 (runAll hs powerOn).DisplayValue = 0 := by
    rw [index0_eq]; exact inv.1
  refine ⟨?_, inv.1, e0, ?_, land_FFF0_of_low_field _ inv, ?_⟩
  · rw [land_000F]; exact inv.1
  · simp only [WriteDig0, writeDIG, writeSEG, incDigitPos, e0]
    decide
  · exact land_FFF0_of_low_field _
      (tickUnitsCarry_low_field _ (tickStep_low_field _ inv))

theorem low_field_always_zero_witness :
    Reachable (runAll [Handler.start, Handler.tick, Handler.tick, Handler.advance,
      Handler.stop] powerOn)
    ∧ (runAll [Handler.start, Handler.tick, Handler.tick, Handler.advance,
      Handler.stop] powerOn).DisplayValue = 0x0020
    ∧ (runAll [Handler.start, Handler.tick, Handler.tick, Handler.advance,
      Handler.stop] powerOn).DisplayValue % 16 = 0
    ∧ (WriteDig0 (runAll [Handler.start, Handler.tick, Handler.tick, Handler.advance,
      Handler.stop] powerOn)).SEG_PORT = some 0xC0 := by
  have r := low_field_always_zero (runAll [Handler.start, Handler.tick, Handler.tick,
    Handler.advance, Handler.stop] powerOn) ⟨_, rfl⟩
  exact ⟨⟨_, rfl⟩, by decide, r.2.1, r.2.2.2.1⟩

/-! ## Runs that leave the straight count -/

theorem runAll_cons (h : Handler) (hs : List Handler) (s : State) :
    runAll (h :: hs) s = runAll hs (h.run s) :=
  rfl

theorem runAll_append (xs ys : List Handler) (s : State) :
    runAll (xs ++ ys) s = runAll ys (runAll xs s) := by
  induction xs generalizing s with
  | nil => rfl
  | cons h rest ih => exact ih (h.run s)

theorem runAll_ticks (n : Nat) (s : State) :
    runAll (List.replicate n Handler.tick) s = ticks n s := by
  induction n generalizing s with
  | zero => rfl
  | succ k ih =>
    have e : ticks (k + 1) s = ticks k (ticks 1 s) := ticks_add k 1 s
    rw [List.replicate_succ, e]
    exact ih (Timer_A1_ISR s)

/-- The run start, 999 ticks, start, one tick ends with display value `0xA000`. -/
theorem runAll_overrun :
    runAll (Handler.start :: (List.replicate 999 Handler.tick
        ++ [Handler.start, Handler.tick])) powerOn
      = { countState 999 with DisplayValue := 0xA000, counter := 0, secCounter := 0,
                              Hundred_mS := 232 } := by
  have e : Handler.run Handler.start powerOn = Button0 powerOn := rfl
  rw [runAll_cons, runAll_append, runAll_ticks, e, ticks_countState 999 (le_refl _)]
  decide

/-- C13: the run start, 999 ticks (automatic stop at `0x9990`), start, one tick
is made of the tick and button functions only and ends in a state whose display
value is `0xA000`, above the terminal value `0x9990`. -/
theorem display_value_passes_terminal :
    Reachable (runAll (Handler.start :: (List.replicate 999 Handler.tick
        ++ [Handler.start, Handler.tick])) powerOn)
    ∧ (runAll (Handler.start :: (List.replicate 999 Handler.tick
        ++ [Handler.start, Handler.tick])) powerOn).DisplayValue = 0xA000
    ∧ 0x9990 < (runAll (Handler.start :: (List.replicate 999 Handler.tick
        ++ [Handler.start, Handler.tick])) powerOn).DisplayValue := by
  refine ⟨⟨_, rfl⟩, ?_, ?_⟩
  · rw [runAll_overrun]
  · rw [runAll_overrun]; decide

/-- C14: in the state reached by start, 999 ticks, start, one tick the highest
4-bit field of the display value holds 10, and the lookup `WriteDig3` makes
there uses the index `0xFFFA` (that is -6), outside the 10-entry table. -/
theorem high_field_leaves_digit_range :
    Reachable (runAll (Handler.start :: (List.replicate 999 Handler.tick
        ++ [Handler.start, Handler.tick])) powerOn)
    ∧ (runAll (Handler.start :: (List.replicate 999 Handler.tick
        ++ [Handler.start, Handler.tick])) powerOn).DisplayValue / 0x1000 % 16 = 10
    ∧ index3 ((runAll (Handler.start :: (List.replicate 999 Handler.tick
        ++ [Handler.start, Handler.tick])) powerOn).DisplayValue &&& 0xF000) = 0xFFFA
    ∧ readSegPattern 0xFFFA = none
    ∧ (WriteDig3 (runAll (Handler.start :: (List.replicate 999 Handler.tick
        ++ [Handler.start, Handler.tick])) powerOn)).SEG_PORT = none := by
  refine ⟨⟨_, rfl⟩, ?_, ?_, by decide, ?_⟩
  · rw [runAll_overrun]; decide
  · rw [runAll_overrun]; decide
  · rw [runAll_overrun]; decide

/-- C18: five ticks into a run (a reachable state), reset and start followed by
five ticks give display value `0x0100`, whereas start and five ticks from
power-on give `0x0050`; after ten ticks the two are `0x0150` and `0x0100`. -/
theorem reset_keeps_carry_counters :
    Reachable (ticks 5 (Button0 powerOn))
    ∧ (Button1 (ticks 5 (Button0 powerOn))).counter = 5
    ∧ (ticks 5 (Button0 (Button1 (ticks 5 (Button0 powerOn))))).DisplayValue = 0x0100
    ∧ (ticks 5 (Button0 powerOn)).DisplayValue = 0x0050
    ∧ (ticks 10 (Button0 (Button1 (ticks 5 (Button0 powerOn))))).DisplayValue = 0x0150
    ∧ (ticks 10 (Button0 powerOn)).DisplayValue = 0x0100 := by
  refine ⟨⟨Handler.start :: List.replicate 5 Handler.tick, ?_⟩, ?_⟩
  · exact runAll_ticks 5 (Button0 powerOn)
  · decide


/-! ## The cursor of the multiplexer -/

theorem DrawsWith.step {v : Nat} {s t : State} (h : DrawsWith v s t)
    (hpos : s.CurrentDigitPos ≤ 4) :
    t.CurrentDigitPos = s.CurrentDigitPos + 1
      ∧ t.portLog.length = s.portLog.length + 3 := by
  obtain ⟨hl, -, hp, -⟩ := h
  refine ⟨by rw [hp]; omega, ?_⟩
  rw [hl]
  simp

/-- One multiplexer call with the cursor in 0..4 draws and moves the cursor on. -/
theorem WriteNextDigitToDisplay_draw (s : State) (h : s.CurrentDigitPos ≤ 4) :
    (WriteNextDigitToDisplay s).CurrentDigitPos = s.CurrentDigitPos + 1
      ∧ (WriteNextDigitToDisplay s).portLog.length = s.portLog.length + 3 := by
  unfold WriteNextDigitToDisplay
  split_ifs
  · exact (WriteDig0_draws s).step h
  · exact (WriteDig1_draws s).step h
  · exact (WriteDig2_draws s).step h
  · exact (WriteDig3_draws s).step h
  · exact (WriteDig4_draws s).step h
  · omega

/-- Cursor and number of port writes after `n` multiplexer calls from cursor 0. -/
theorem advances_cursor (s : State) (h : s.CurrentDigitPos = 0) (n : Nat) :
    (advances n s).CurrentDigitPos = n % 6
      ∧ (advances n s).portLog.length = s.portLog.length + 3 * (n - n / 6) := by
  induction n with
  | zero => exact ⟨h, rfl⟩
  | succ k ih =>
    obtain ⟨ip, il⟩ := ih
    by_cases h5 : k % 6 = 5
    · have e : advances (k + 1) s = { advances k s with CurrentDigitPos := 0 } :=
        WriteNextDigitToDisplay_of_pos5 _ (ip.trans h5)
      rw [e]
      refine ⟨?_, ?_⟩
      · show 0 = (k + 1) % 6
        omega
      · show (advances k s).portLog.length = _
        rw [il]
        omega
    · obtain ⟨dp, dl⟩ := WriteNextDigitToDisplay_draw (advances k s) (by omega)
      refine ⟨?_, ?_⟩
      · show (WriteNextDigitToDisplay (advances k s)).CurrentDigitPos = _
        rw [dp, ip]
        omega
      · show (WriteNextDigitToDisplay (advances k s)).portLog.length = _
        rw [dl, il]
        omega

/-- C15 (as stated, refuted): after five multiplexer calls from power-on the
cursor is 5, outside 0..4, and the sixth call takes the final `else` branch: it
writes to no port and only puts the cursor back to 0. -/
theorem cursor_reaches_five :
    powerOn.CurrentDigitPos = 0
    ∧ (advances 5 powerOn).CurrentDigitPos = 5
    ∧ ¬ (advances 5 powerOn).CurrentDigitPos ≤ 4
    ∧ advances 6 powerOn = { advances 5 powerOn with CurrentDigitPos := 0 }
    ∧ (advances 6 powerOn).portLog = (advances 5 powerOn).portLog := by
  decide

/-- C15 (amended): starting from cursor 0, after `n` multiplexer calls the cursor
is `n % 6`, hence within 0..5; a call made with the cursor at `k` in 0..4 draws
position `k`: it runs `WriteDig0`, ..., `WriteDig4` respectively, which makes
the three port writes of that position (`0xFF`, the segment pattern, the select
value `0xF7`, `0xFB`, `0xFD`, `0xFE`, `0xEF`) and moves the cursor on by one; the
call made with the cursor at 5, every sixth one, draws nothing and puts the
cursor back to 0; `n` calls have drawn `n - n / 6` positions. -/
theorem cursor_cycle_of_six (s : State) (h : s.CurrentDigitPos = 0) (n : Nat) :
    (advances n s).CurrentDigitPos = n % 6
    ∧ (advances n s).CurrentDigitPos ≤ 5
    ∧ (advances n s).portLog.length = s.portLog.length + 3 * (n - n / 6)
    ∧ (n % 6 ≠ 5 →
        (advances (n + 1) s).CurrentDigitPos = (advances n s).CurrentDigitPos + 1
        ∧ (advances (n + 1) s).portLog.length = (advances n s).portLog.length + 3)
    ∧ (n % 6 = 5 → advances (n + 1) s = { advances n s with CurrentDigitPos := 0 })
    ∧ (n % 6 = 0 →
        advances (n + 1) s = WriteDig0 (advances n s)
        ∧ (advances (n + 1) s).portLog = (advances n s).portLog ++
            [PortWrite.dig 0xFF, PortWrite.seg (advances (n + 1) s).SEG_PORT,
             PortWrite.dig 0xF7]
        ∧ (advances (n + 1) s).SEG_PORT
            = (readSegPattern (index0 (advances n s).DisplayValue)).map (· % 256))
    ∧ (n % 6 = 1 →
        advances (n + 1) s = WriteDig1 (advances n s)
        ∧ (advances (n + 1) s).portLog = (advances n s).portLog ++
            [PortWrite.dig 0xFF, PortWrite.seg (advances (n + 1) s).SEG_PORT,
             PortWrite.dig 0xFB]
        ∧ (advances (n + 1) s).SEG_PORT
            = (readSegPattern (index1 (advances n s).DisplayValue)).map (· % 256))
    ∧ (n % 6 = 2 →
        advances (n + 1) s = WriteDig2 (advances n s)
        ∧ (advances (n + 1) s).portLog = (advances n s).portLog ++
            [PortWrite.dig 0xFF, PortWrite.seg (advances (n + 1) s).SEG_PORT,
             PortWrite.dig 0xFD]
        ∧ (advances (n + 1) s).SEG_PORT
            = (readSegPattern (index2 (advances n s).DisplayValue)).map (· % 256))
    ∧ (n % 6 = 3 →
        advances (n + 1) s = WriteDig3 (advances n s)
        ∧ (advances (n + 1) s).portLog = (advances n s).portLog ++
            [PortWrite.dig 0xFF, PortWrite.seg (advances (n + 1) s).SEG_PORT,
             PortWrite.dig 0xFE])
    ∧ (n % 6 = 4 →
        advances (n + 1) s = WriteDig4 (advances n s)
        ∧ (advances (n + 1) s).portLog = (advances n s).portLog ++
            [PortWrite.dig 0xFF, PortWrite.seg (some 0xFC), PortWrite.dig 0xEF]) := by
  obtain ⟨ip, il⟩ := advances_cursor s h n
  refine ⟨ip, by omega, il, fun h5 => ?_, fun h5 => ?_, fun hk => ?_, fun hk => ?_,
    fun hk => ?_, fun hk => ?_, fun hk => ?_⟩
  · exact WriteNextDigitToDisplay_draw (advances n s) (by omega)
  · exact WriteNextDigitToDisplay_of_pos5 _ (ip.trans h5)
  · have e : advances (n + 1) s = WriteDig0 (advances n s) := by
      simp [advances, WriteNextDigitToDisplay, ip.trans hk]
    rw [e]
    exact ⟨rfl, (WriteDig0_draws _).1, rfl⟩
  · have e : advances (n + 1) s = WriteDig1 (advances n s) := by
      simp [advances, WriteNextDigitToDisplay, ip.trans hk]
    rw [e]
    exact ⟨rfl, (WriteDig1_draws _).1, rfl⟩
  · have e : advances (n + 1) s = WriteDig2 (advances n s) := by
      simp [advances, WriteNextDigitToDisplay, ip.trans hk]
    rw [e]
    exact ⟨rfl, (WriteDig2_draws _).1, rfl⟩
  · have e : advances (n + 1) s = WriteDig3 (advances n s) := by
      simp [advances, WriteNextDigitToDisplay, ip.trans hk]
    rw [e]
    exact ⟨rfl, (WriteDig3_draws _).1⟩
  · have e : advances (n + 1) s = WriteDig4 (advances n s) := by
      simp [advances, WriteNextDigitToDisplay, ip.trans hk]
    rw [e]
    exact ⟨rfl, (WriteDig4_draws _).1⟩

theorem cursor_cycle_of_six_witness :
    (countState 457).CurrentDigitPos = 0
    ∧ (advances 17 (countState 457)).CurrentDigitPos = 5
    ∧ (advances 17 (countState 457)).portLog.length = 45
    ∧ advances 18 (countState 457)
        = { advances 17 (countState 457) with CurrentDigitPos := 0 }
    ∧ advances 14 (countState 457) = WriteDig1 (advances 13 (countState 457))
    ∧ (advances 14 (countState 457)).portLog = (advances 13 (countState 457)).portLog ++
        [PortWrite.dig 0xFF, PortWrite.seg (advances 14 (countState 457)).SEG_PORT,
         PortWrite.dig 0xFB]
    ∧ (advances 14 (countState 457)).SEG_PORT
        = (readSegPattern (index1 (advances 13 (countState 457)).DisplayValue)).map
            (· % 256) := by
  have r := cursor_cycle_of_six (countState 457) rfl 17
  have q := (cursor_cycle_of_six (countState 457) rfl 13).2.2.2.2.2.2.1 (by decide)
  exact ⟨rfl, r.1, r.2.2.1, r.2.2.2.2.1 (by decide), q.1, q.2.1, q.2.2⟩

end Stopwatch
